import Mathlib

/-!
Shallow embedding of the solanapoet NFT-scanning scripts.

The repository consists of small Python scripts that paginate through a
remote NFT collection, filter assets by a rarity trait, and record matches
in a spreadsheet ledger, with a resumable checkpoint file.  This file embeds
the relevant functions:

* `check_nft_rarity`, `get_nfts_by_collection`, `log_ultimate_nft` and the
  main loop from `fetch_ultimate_nfts.py` (cursor-based variant);
* the attribute matcher and page loop of `track_ultimate_nfts.py`
  (page-based variant with a 10000 request limit);
* `save_checkpoint` / `load_checkpoint`, `add_ultimate_nft_to_sheet` and
  `fetch_nfts_from_collection` from `scripts/track_ultimate_nfts.py`
  (page-based, checkpointed driver) together with `main`'s checkpoint
  cleanup rule.

Python dynamic values are modelled by `PyVal`; a Python `AttributeError`
raised by calling `.lower()` on a non-string is modelled by `Except.error`.
Network behaviour is supplied as an explicit environment function, and the
unbounded `while` loops are given explicit fuel.
-/

deriving instance DecidableEq for Except

namespace Solanapoet

/-- Dynamic Python value as it occurs in attribute dictionaries: a string,
a number, or `None`.  Absent dictionary keys are modelled by `Option.none`
at use sites. -/
inductive PyVal where
  | vStr (s : String)
  | vNum (n : Int)
  | vNone
  deriving DecidableEq

/-- ASCII lowering of one character, as Python `str.lower` acts on the ASCII
range used by these scripts. -/
def charLower (c : Char) : Char :=
  if 65 ≤ c.toNat ∧ c.toNat ≤ 90 then Char.ofNat (c.toNat + 32) else c

/-- Python `str.lower` restricted to ASCII (every string these scripts
compare is ASCII). -/
def strLower (s : String) : String := ⟨s.data.map charLower⟩

/-- Python truthiness of a `PyVal` (`if created_date:` and `if not next_cursor:`
tests): `None`, `""` and `0` are falsy. -/
def PyVal.truthy : PyVal → Bool
  | .vStr s => s ≠ ""
  | .vNum n => n ≠ 0
  | .vNone => false

/-- Python `x.lower()`: defined on strings, raises `AttributeError`
(modelled as `Except.error ()`) on any other value. -/
def pyLower : PyVal → Except Unit String
  | .vStr s => .ok (strLower s)
  | _ => .error ()

/-- One entry of an asset's `attributes` list.  A field is `none` when the
key is absent from the Python dict. -/
structure NftAttr where
  trait_type : Option PyVal
  value : Option PyVal
  deriving DecidableEq

/-- The fields of an asset record that the scripts consult, flattened from
the nested `content.metadata` / `ownership` dictionaries. -/
structure Asset where
  id : String
  name : String
  owner : String
  attributes : List NftAttr
  deriving DecidableEq

/-- The collection address constant shared by all scripts. -/
def COLLECTION_ID : String := "DGPTxgKaBPJv3Ng7dc9AFDpX6E7kgUMZEgyTm3VGWPW6"

/-- Embeds `check_nft_rarity` of `fetch_ultimate_nfts.py` (lines 78-84):
scan the attribute list; on the first attribute whose `trait_type` lowers to
`"rarity"` return `value.lower()`; return `"none"` when no attribute
matches.  `attr.get(key, "")` is `getD (.vStr "")`; `.lower()` on a
non-string value raises. -/
def check_nft_rarity : List NftAttr → Except Unit String
  | [] => .ok "none"
  | a :: rest =>
    match pyLower (a.trait_type.getD (.vStr "")) with
    | .error e => .error e
    | .ok t =>
      if t = "rarity" then pyLower (a.value.getD (.vStr ""))
      else check_nft_rarity rest

/-- Embeds the attribute test of `find_all_ultimate_nfts` in
`track_ultimate_nfts.py` (lines 41-43): `attr.get("trait_type") == "rarity"`
(exact comparison against the raw value), `isinstance(attr.get("value"), str)`,
and `attr["value"].lower() == "ultimate"`. -/
def track_attr_matches (a : NftAttr) : Bool :=
  a.trait_type == some (PyVal.vStr "rarity") &&
    (match a.value with
     | some (.vStr v) => strLower v == "ultimate"
     | _ => false)

/-- The record appended for each matching attribute by
`find_all_ultimate_nfts` (subset of the fields it stores). -/
structure TrackMatch where
  id : String
  name : String
  rarity : String
  deriving DecidableEq

/-- The raw string stored as `attr["value"]` by the matcher (guarded by the
isinstance check, so the string case is the only reachable one). -/
def attrValueStr (a : NftAttr) : String :=
  match a.value with
  | some (.vStr v) => v
  | _ => ""

/-- Embeds the inner attribute loop of `find_all_ultimate_nfts`
(lines 40-51): one record is appended per matching attribute; there is no
break, so several attributes of one asset can each append. -/
def find_ultimate_in_asset (nft : Asset) : List NftAttr → List TrackMatch
  | [] => []
  | a :: rest =>
    if track_attr_matches a then
      ⟨nft.id, nft.name, attrValueStr a⟩ :: find_ultimate_in_asset nft rest
    else find_ultimate_in_asset nft rest

/-- Matches produced by one asset in `find_all_ultimate_nfts`. -/
def track_asset_matches (nft : Asset) : List TrackMatch :=
  find_ultimate_in_asset nft nft.attributes

/-- Result of one sink emit in `scripts/track_ultimate_nfts.py`. -/
inductive EmitResult where
  | ack
  | duplicateSkip
  deriving DecidableEq

/-- Embeds `add_ultimate_nft_to_sheet` of `scripts/track_ultimate_nfts.py`
(lines 75-109): read the existing rows; if some non-empty row's first cell
equals the NFT address, skip without mutating; otherwise append the row
`[address, name, owner]`. -/
def add_ultimate_nft_to_sheet (sheet : List (List String))
    (address name owner : String) : List (List String) × EmitResult :=
  if sheet.any (fun row => row.head? == some address) then
    (sheet, .duplicateSkip)
  else
    (sheet ++ [[address, name, owner]], .ack)

/-- Embeds `log_ultimate_nft` of `fetch_ultimate_nfts.py` (lines 86-106):
appends the row `[id, name, owner, collection]` unconditionally; no read of
existing rows takes place. -/
def log_ultimate_nft (sheet : List (List String))
    (id name owner collection : String) : List (List String) :=
  sheet ++ [[id, name, owner, collection]]

/-!
Cursor-based variant: `get_nfts_by_collection` and `main` of
`fetch_ultimate_nfts.py`.
-/

/-- What one attempt of the cursor-based fetch observes:
a raised `requests` exception, a non-200 HTTP response, a 200 response whose
body carries an `error` field, or a 200 success body with an item list and
the `cursor` field (`PyVal.vNone` when absent). -/
inductive CursorAttempt where
  | exnFail
  | httpFail
  | apiErrorResp
  | okResult (items : List Asset) (cursor : PyVal)

/-- The `retry_delay` constant of `get_nfts_by_collection`. -/
def retry_delay : Nat := 1

/-- Attempt loop of `get_nfts_by_collection` (lines 45-76): `attempt` is the
0-based loop index, the second argument the remaining iterations of
`range(max_retries)`.  An exception, a non-200 status and an API error body
all fall through to `time.sleep(retry_delay * (attempt + 1))` and the next
iteration; a success body returns `([], None)` when `items` is empty and
`(items, cursor)` otherwise.  The returned list records the sleep durations
in order. -/
def getNftsAttempts (api : Nat → CursorAttempt) :
    Nat → Nat → (List Asset × PyVal) × List Nat
  | _, 0 => (([], .vNone), [])
  | attempt, n + 1 =>
    match api attempt with
    | .okResult items cursor =>
      if items.isEmpty then (([], .vNone), [])
      else ((items, cursor), [])
    | _ =>
      let r := getNftsAttempts api (attempt + 1) n
      (r.1, retry_delay * (attempt + 1) :: r.2)

/-- Embeds `get_nfts_by_collection`: three attempts starting at index 0;
falls out of the loop with `([], None)` when all attempts fail. -/
def get_nfts_by_collection (api : Nat → CursorAttempt) :
    (List Asset × PyVal) × List Nat :=
  getNftsAttempts api 0 3

/-- State of `main` in `fetch_ultimate_nfts.py`: the pagination cursor, the
running counters, and the ledger rows appended so far. -/
structure FetchState where
  cursor : PyVal
  totalProcessed : Nat
  ultimateFound : Nat
  rareFound : Nat
  legendaryFound : Nat
  sheet : List (List String)
  deriving DecidableEq

/-- Processing of one NFT in `main`'s batch loop (lines 147-158):
`check_nft_rarity` may raise; on `"ultimate"` the record is logged to the
sheet, on `"rare"` / `"legendary"` only a counter moves. -/
def fetchProcessOne (st : FetchState) (nft : Asset) : Except Unit FetchState :=
  match check_nft_rarity nft.attributes with
  | .error e => .error e
  | .ok r =>
    if r = "ultimate" then
      .ok { st with ultimateFound := st.ultimateFound + 1,
                    sheet := log_ultimate_nft st.sheet nft.id nft.name nft.owner COLLECTION_ID }
    else if r = "rare" then .ok { st with rareFound := st.rareFound + 1 }
    else if r = "legendary" then .ok { st with legendaryFound := st.legendaryFound + 1 }
    else .ok st

/-- The per-batch NFT loop of `main`; the first raised exception aborts the
batch (it is caught by `main`'s handler). -/
def processFetchAssets : List Asset → FetchState → Except Unit FetchState
  | [], st => .ok st
  | nft :: rest, st =>
    match fetchProcessOne st nft with
    | .error e => .error e
    | .ok st1 => processFetchAssets rest st1

/-- Termination reasons of `main` in `fetch_ultimate_nfts.py`.  Both
`completeNoNfts` (`if not nfts:` branch) and `completeEndCursor`
(`if not next_cursor:` branch) print the normal `Processing complete!`
summary and return. -/
inductive FetchOutcome where
  | completeNoNfts
  | completeEndCursor
  | outOfFuel
  deriving DecidableEq

/-- Embeds the `while True` loop of `main` (lines 122-190).  The environment
maps the current cursor value to the attempt behaviour seen by
`get_nfts_by_collection`.  Since `get_nfts_by_collection` catches all its
own errors, the only exception `main`'s handler can see is one raised while
processing a batch; `success` is already `True` at that point, so the inner
retry loop exits and the outer loop re-fetches the same cursor — the
`retry_count >= max_retries_per_batch` return is unreachable and is not a
constructor here. -/
def fetchMainLoop (env : PyVal → Nat → CursorAttempt) :
    Nat → FetchState → FetchOutcome × FetchState
  | 0, st => (.outOfFuel, st)
  | fuel + 1, st =>
    match (get_nfts_by_collection (env st.cursor)).1.1 with
    | [] => (.completeNoNfts, st)
    | nft :: rest =>
      match processFetchAssets (nft :: rest)
          { st with totalProcessed := st.totalProcessed + (nft :: rest).length } with
      | .error _ =>
        fetchMainLoop env fuel
          { st with totalProcessed := st.totalProcessed + (nft :: rest).length }
      | .ok st2 =>
        if (get_nfts_by_collection (env st.cursor)).1.2.truthy then
          fetchMainLoop env fuel
            { st2 with cursor := (get_nfts_by_collection (env st.cursor)).1.2 }
        else (.completeEndCursor, st2)

/-!
Page-based checkpointed driver: `scripts/track_ultimate_nfts.py`.
-/

/-- The `batch_size` constant of `fetch_nfts_from_collection` (line 115):
the `limit` field sent with every page request.  The loop never compares a
page's length against it; only an empty page ends the loop. -/
def batch_size : Nat := 1000

/-- The fixed sleep between retry attempts of `fetch_nfts_from_collection`
(`time.sleep(2)` at line 211). -/
def script_retry_sleep : Nat := 2

/-- What one `requests.post` of `fetch_nfts_from_collection` observes:
a raised `requests` exception (including `raise_for_status`), an error body
carrying the `Paginating beyond 500000 items` message, any other error body,
a body without `result`/`items`, or a successful item list. -/
inductive PageFetch where
  | transportFail
  | depthLimitError
  | otherApiError
  | malformedBody
  | pageItems (items : List Asset)

/-- Outcome of the inner retry loop for one page. -/
inductive PageResult where
  | gotItems (items : List Asset)
  | emptyPage
  | retriesExhausted
  | stopDepth
  | stopApi
  | stopMalformed
  deriving DecidableEq

/-- Inner retry loop of `fetch_nfts_from_collection` (lines 142-214):
`attempt` is 1-based, the second argument is the remaining `retries`.  Only a
transport exception is retried, sleeping `script_retry_sleep` when retries
remain; error bodies and malformed bodies return from the function at once;
an empty item list sets `has_more = False`.  The second component records
the sleeps performed. -/
def fetchPageFrom (api : Nat → PageFetch) (attempt : Nat) :
    Nat → PageResult × List Nat
  | 0 => (.retriesExhausted, [])
  | retries + 1 =>
    match api attempt with
    | .transportFail =>
      if retries = 0 then (.retriesExhausted, [])
      else
        let r := fetchPageFrom api (attempt + 1) retries
        (r.1, script_retry_sleep :: r.2)
    | .depthLimitError => (.stopDepth, [])
    | .otherApiError => (.stopApi, [])
    | .malformedBody => (.stopMalformed, [])
    | .pageItems [] => (.emptyPage, [])
    | .pageItems (a :: rest) => (.gotItems (a :: rest), [])

/-- One page's fetch: `retries = 3` as in the source. -/
def fetchPage (api : Nat → PageFetch) : PageResult × List Nat :=
  fetchPageFrom api 1 3

/-- Attribute loop of the per-NFT processing (lines 172-177): a `created`
attribute (exact comparison on the raw `trait_type`) updates `created_date`
to the raw value; otherwise a case-insensitive `rarity`/`ultimate` pair sets
`is_ultimate`.  The `.lower()` calls raise on non-string present values. -/
def scriptScanAttrs : List NftAttr → PyVal → Bool → Except Unit (PyVal × Bool)
  | [], created, ult => .ok (created, ult)
  | a :: rest, created, ult =>
    if a.trait_type.getD .vNone = .vStr "created" then
      scriptScanAttrs rest (a.value.getD .vNone) ult
    else
      match pyLower (a.trait_type.getD (.vStr "")) with
      | .error e => .error e
      | .ok t =>
        if t = "rarity" then
          match pyLower (a.value.getD (.vStr "")) with
          | .error e => .error e
          | .ok v => scriptScanAttrs rest created (ult || v = "ultimate")
        else scriptScanAttrs rest created ult

/-- State of `fetch_nfts_from_collection`: current page, `last_date`,
`len(all_nfts)`, the sequence of checkpoints saved so far by
`save_checkpoint` (in order), the sheet rows, and the page numbers for which
a request has been issued. -/
structure ScanState where
  page : Nat
  lastDate : PyVal
  allCount : Nat
  checkpoints : List (Nat × PyVal)
  sheet : List (List String)
  requested : List Nat
  deriving DecidableEq

/-- Per-NFT body of the page loop (lines 167-194): scan the attributes,
update `last_date` when a truthy `created_date` was seen, emit to the sheet
when `is_ultimate`, and append the NFT to `all_nfts`. -/
def scriptProcessNft (st : ScanState) (nft : Asset) : Except Unit ScanState :=
  match scriptScanAttrs nft.attributes .vNone false with
  | .error e => .error e
  | .ok cu =>
    .ok { st with
      lastDate := if cu.1.truthy then cu.1 else st.lastDate,
      sheet := if cu.2 then (add_ultimate_nft_to_sheet st.sheet nft.id nft.name nft.owner).1
               else st.sheet,
      allCount := st.allCount + 1 }

/-- The `for nft in batch_nfts` loop. -/
def processAssets : List Asset → ScanState → Except Unit ScanState
  | [], st => .ok st
  | nft :: rest, st =>
    match scriptProcessNft st nft with
    | .error e => .error e
    | .ok st1 => processAssets rest st1

/-- Page processing followed by `save_checkpoint(page, last_date)`
(line 197): exactly one checkpoint is appended, recording the page being
processed and the `last_date` after the item loop. -/
def processPage (st : ScanState) (items : List Asset) : Except Unit ScanState :=
  match processAssets items st with
  | .error e => .error e
  | .ok st1 => .ok { st1 with checkpoints := st1.checkpoints ++ [(st1.page, st1.lastDate)] }

/-- Why `fetch_nfts_from_collection` stopped. -/
inductive StopReason where
  | naturalEnd
  | depthLimit
  | apiError
  | malformedResp
  | crashed
  | fuelOut
  deriving DecidableEq

/-- Result of one iteration of the outer `while has_more` loop. -/
inductive StepOut where
  | next (st : ScanState)
  | halt (st : ScanState) (r : StopReason)

/-- State carried by a step outcome. -/
def StepOut.state : StepOut → ScanState
  | .next st => st
  | .halt st _ => st

/-- Dispatch on the fetched page: error bodies return immediately (the
depth-limit message distinctly); an empty page ends the loop naturally
(`page += 1` at line 216 still runs); exhausted retries skip the page and
advance; items are processed, checkpointed, and the page advances.  An
exception during processing (non-string `.lower()`) propagates out of the
function uncaught. -/
def scanStepCore : PageResult → ScanState → StepOut
  | .stopDepth, st0 => .halt st0 .depthLimit
  | .stopApi, st0 => .halt st0 .apiError
  | .stopMalformed, st0 => .halt st0 .malformedResp
  | .emptyPage, st0 => .halt { st0 with page := st0.page + 1 } .naturalEnd
  | .retriesExhausted, st0 => .next { st0 with page := st0.page + 1 }
  | .gotItems items, st0 =>
    match processPage st0 items with
    | .error _ => .halt st0 .crashed
    | .ok st1 => .next { st1 with page := st1.page + 1 }

/-- One outer-loop iteration: issue the request for the current page and
dispatch on the retry loop's outcome.  `api` maps a page number and 1-based
attempt number to the observed response. -/
def scanStep (api : Nat → Nat → PageFetch) (st : ScanState) : StepOut :=
  scanStepCore (fetchPage (api st.page)).1
    { st with requested := st.requested ++ [st.page] }

/-- The fuelled `while has_more` loop of `fetch_nfts_from_collection`. -/
def runScan (api : Nat → Nat → PageFetch) : Nat → ScanState → ScanState × StopReason
  | 0, st => (st, .fuelOut)
  | fuel + 1, st =>
    match scanStep api st with
    | .next st1 => runScan api fuel st1
    | .halt st1 r => (st1, r)

/-- Embeds `load_checkpoint` (lines 66-73): the stored pair when the file
exists, else page 1 with no date. -/
def load_checkpoint : Option (Nat × PyVal) → Nat × PyVal
  | some cp => cp
  | none => (1, .vNone)

/-- Initial scan state for a run resuming from an optional checkpoint. -/
def initScanState (cp : Option (Nat × PyVal)) : ScanState :=
  ⟨(load_checkpoint cp).1, (load_checkpoint cp).2, 0, [], [], []⟩

/-- Embeds the cleanup decision of `main` (lines 246-254): the checkpoint
file is kept only when `len(nfts) >= 500000` for the NFTs fetched in this
run; otherwise it is removed. -/
def main_removes_checkpoint (totalFetched : Nat) : Bool :=
  decide (totalFetched < 500000)

/-!
Simple page-based variant: `find_all_ultimate_nfts` of
`track_ultimate_nfts.py`.
-/

/-- The `limit` value sent with every request by `find_all_ultimate_nfts`
(line 24). -/
def track_request_limit : Nat := 10000

/-- A page request of `find_all_ultimate_nfts` as sent to the API. -/
structure TrackReq where
  page : Nat
  limit : Nat
  deriving DecidableEq

/-- What one page fetch of `find_all_ultimate_nfts` observes: an item list,
or any exception while reading the response (caught by the `except` which
breaks the loop). -/
inductive TrackFetch where
  | items (its : List Asset)
  | fetchError

/-- State of the `find_all_ultimate_nfts` loop. -/
structure TrackState where
  page : Nat
  totalChecked : Nat
  ultimates : List TrackMatch
  requested : List TrackReq
  deriving DecidableEq

/-- Why the `find_all_ultimate_nfts` loop stopped. -/
inductive TrackStop where
  | naturalEnd
  | errored
  | fuelOut
  deriving DecidableEq

/-- The `for nft in items` loop of `find_all_ultimate_nfts`. -/
def trackCollect : List Asset → List TrackMatch
  | [] => []
  | nft :: rest => track_asset_matches nft ++ trackCollect rest

/-- Embeds the `while True` loop of `find_all_ultimate_nfts` (lines 11-63):
each iteration requests the current page with `limit = 10000`, accumulates
matches, and breaks when `len(items) < 1000` — the hard-coded 1000, not the
requested limit. -/
def trackRun (api : Nat → TrackFetch) : Nat → TrackState → TrackState × TrackStop
  | 0, st => (st, .fuelOut)
  | fuel + 1, st =>
    match api st.page with
    | .fetchError =>
      ({ st with requested := st.requested ++ [TrackReq.mk st.page track_request_limit] },
       .errored)
    | .items its =>
      if its.length < 1000 then
        ({ st with requested := st.requested ++ [TrackReq.mk st.page track_request_limit],
                   totalChecked := st.totalChecked + its.length,
                   ultimates := st.ultimates ++ trackCollect its }, .naturalEnd)
      else
        trackRun api fuel
          { st with requested := st.requested ++ [TrackReq.mk st.page track_request_limit],
                    totalChecked := st.totalChecked + its.length,
                    ultimates := st.ultimates ++ trackCollect its,
                    page := st.page + 1 }

/-!
Concrete fixtures used by the witnesses and counterexamples.
-/

/-- An asset with no attributes. -/
def plainAsset : Asset := ⟨"addr1", "NFT One", "owner1", []⟩

/-- An asset whose only attribute is a `created` date. -/
def datedAsset (d : String) : Asset :=
  ⟨"addrD", "Dated", "ownerD", [⟨some (.vStr "created"), some (.vStr d)⟩]⟩

/-- An attribute written with capitalised trait type, as in the spec's
example. -/
def capitalRarityAttr : NftAttr := ⟨some (.vStr "Rarity"), some (.vStr "Ultimate")⟩

/-- Asset carrying only the capitalised rarity attribute. -/
def capitalRarityAsset : Asset := ⟨"addr2", "NFT Two", "owner2", [capitalRarityAttr]⟩

/-- Asset with two attributes that both satisfy the matcher of
`find_all_ultimate_nfts`. -/
def doubleRarityAsset : Asset :=
  ⟨"addr3", "NFT Three", "owner3",
    [⟨some (.vStr "rarity"), some (.vStr "ultimate")⟩,
     ⟨some (.vStr "rarity"), some (.vStr "Ultimate")⟩]⟩

/-- Asset whose rarity attribute carries a numeric value. -/
def numericRarityAsset : Asset :=
  ⟨"addr4", "NFT Four", "owner4", [⟨some (.vStr "rarity"), some (.vNum 5)⟩]⟩

/-- Environment: page 1 holds a single item, every later page is empty. -/
def shortPageApi : Nat → Nat → PageFetch
  | 1, _ => .pageItems [plainAsset]
  | _, _ => .pageItems []

/-- Environment: page 1 holds two dated items, every later page is empty. -/
def datedPageApi : Nat → Nat → PageFetch
  | 1, _ => .pageItems [datedAsset "2024-01-01", datedAsset "2024-02-02"]
  | _, _ => .pageItems []

/-- Environment: every attempt of every page raises a transport error. -/
def allFailPageApi : Nat → Nat → PageFetch := fun _ _ => .transportFail

/-- Environment: every page reports the pagination depth-limit error. -/
def depthApi : Nat → Nat → PageFetch := fun _ _ => .depthLimitError

/-- Environment: every attempt on page 1 fails, page 2 holds one item,
page 3 is empty. -/
def skipApi : Nat → Nat → PageFetch
  | 1, _ => .transportFail
  | 2, _ => .pageItems [plainAsset]
  | _, _ => .pageItems []

/-- Environment: page 1 fails twice then succeeds on the third attempt,
page 2 is empty. -/
def retryThenSuccessApi : Nat → Nat → PageFetch
  | 1, 1 => .transportFail
  | 1, 2 => .transportFail
  | 1, _ => .pageItems [plainAsset]
  | _, _ => .pageItems []

/-- Environment: every page request is empty on the first attempt. -/
def emptyApi : Nat → Nat → PageFetch := fun _ _ => .pageItems []

/-- Cursor-variant environment: every attempt fails with an exception. -/
def allFailCursorApi : Nat → CursorAttempt := fun _ => .exnFail

/-- Cursor-variant environment: the collection is genuinely empty. -/
def emptyCollectionApi : Nat → CursorAttempt := fun _ => .okResult [] .vNone

/-- Main-loop environment built from a cursor-independent attempt map. -/
def constEnv (api : Nat → CursorAttempt) : PyVal → Nat → CursorAttempt :=
  fun _ => api

/-- Initial state of `main` in `fetch_ultimate_nfts.py`. -/
def initFetchState : FetchState := ⟨.vNone, 0, 0, 0, 0, []⟩

/-- Track-variant environment: every page holds exactly one item. -/
def oneItemTrackApi : Nat → TrackFetch := fun _ => .items [plainAsset]

/-- Starting state of the `find_all_ultimate_nfts` loop (`page = 1`). -/
def trackInit : TrackState := ⟨1, 0, [], []⟩

/-!
Frame lemmas about the page-based driver: which state fields the per-NFT
processing can touch.
-/

/-- Processing one NFT changes neither the page number, nor the saved
checkpoints, nor the requested-page log. -/
theorem scriptProcessNft_frame (st st2 : ScanState) (nft : Asset)
    (h : scriptProcessNft st nft = Except.ok st2) :
    st2.page = st.page ∧ st2.checkpoints = st.checkpoints ∧
      st2.requested = st.requested := by
  unfold scriptProcessNft at h
  cases hscan : scriptScanAttrs nft.attributes .vNone false with
  | error e => rw [hscan] at h; exact absurd h (by simp)
  | ok cu => rw [hscan] at h; cases h; simp

/-- The per-page NFT loop changes neither the page number, nor the saved
checkpoints, nor the requested-page log. -/
theorem processAssets_frame :
    ∀ (items : List Asset) (st st1 : ScanState),
      processAssets items st = Except.ok st1 →
      st1.page = st.page ∧ st1.checkpoints = st.checkpoints ∧
        st1.requested = st.requested := by
  intro items
  induction items with
  | nil =>
    intro st st1 h
    unfold processAssets at h
    cases h
    exact ⟨rfl, rfl, rfl⟩
  | cons nft rest ih =>
    intro st st1 h
    unfold processAssets at h
    cases hstep : scriptProcessNft st nft with
    | error e => rw [hstep] at h; exact absurd h (by simp)
    | ok st2 =>
      rw [hstep] at h
      have h2 := ih st2 st1 h
      have hf := scriptProcessNft_frame st st2 nft hstep
      exact ⟨h2.1.trans hf.1, h2.2.1.trans hf.2.1, h2.2.2.trans hf.2.2⟩

/-- A successfully processed page appends exactly one checkpoint, recording
the page being processed (not the next one) and the final `last_date` of the
page, and leaves the page number and request log unchanged. -/
theorem processPage_spec (st : ScanState) (items : List Asset) (st1 : ScanState)
    (h : processPage st items = Except.ok st1) :
    st1.page = st.page ∧ st1.requested = st.requested ∧
      st1.checkpoints = st.checkpoints ++ [(st.page, st1.lastDate)] := by
  unfold processPage at h
  cases hpa : processAssets items st with
  | error e => rw [hpa] at h; exact absurd h (by simp)
  | ok stm =>
    rw [hpa] at h
    cases h
    have hf := processAssets_frame items st stm hpa
    refine ⟨hf.1, hf.2.2, ?_⟩
    simp [hf.1, hf.2.1]

/-!
Invariant: checkpoint positions strictly advance.
-/

/-- Invariant carried through the scan loop: the positions of the saved
checkpoints are strictly increasing, and all lie strictly below the current
page. -/
def CkInv (st : ScanState) : Prop :=
  List.Pairwise (· < ·) (st.checkpoints.map Prod.fst) ∧
    ∀ c ∈ st.checkpoints, c.1 < st.page

/-- One loop iteration preserves the checkpoint invariant. -/
theorem scanStepCore_inv (pr : PageResult) (st0 : ScanState) (h : CkInv st0) :
    CkInv (scanStepCore pr st0).state := by
  cases pr with
  | stopDepth => exact h
  | stopApi => exact h
  | stopMalformed => exact h
  | emptyPage =>
    exact ⟨h.1, fun c hc => Nat.lt_succ_of_lt (h.2 c hc)⟩
  | retriesExhausted =>
    exact ⟨h.1, fun c hc => Nat.lt_succ_of_lt (h.2 c hc)⟩
  | gotItems items =>
    cases hpp : processPage st0 items with
    | error e => simpa [scanStepCore, hpp, StepOut.state] using h
    | ok st1 =>
      have hs := processPage_spec st0 items st1 hpp
      simp only [scanStepCore, hpp, StepOut.state]
      constructor
      · rw [hs.2.2, List.map_append, List.pairwise_append]
        refine ⟨h.1, by simp, ?_⟩
        intro a ha b hb
        simp only [List.map_cons, List.map_nil, List.mem_singleton] at hb
        subst hb
        obtain ⟨c, hc, rfl⟩ := List.mem_map.1 ha
        exact h.2 c hc
      · intro c hc
        rw [hs.2.2] at hc
        rcases List.mem_append.1 hc with h1 | h1
        · exact Nat.lt_succ_of_lt (lt_of_lt_of_le (h.2 c h1) (le_of_eq hs.1.symm))
        · simp only [List.mem_singleton] at h1
          subst h1
          simp [hs.1]

/-- The whole run preserves the checkpoint invariant. -/
theorem runScan_inv (api : Nat → Nat → PageFetch) :
    ∀ (fuel : Nat) (st : ScanState), CkInv st → CkInv (runScan api fuel st).1 := by
  intro fuel
  induction fuel with
  | zero => intro st h; exact h
  | succ f ih =>
    intro st h
    have hstep : CkInv (scanStep api st).state := by
      unfold scanStep
      exact scanStepCore_inv _ _ h
    unfold runScan
    cases hs : scanStep api st with
    | next st1 =>
      rw [hs] at hstep
      exact ih st1 hstep
    | halt st1 r =>
      rw [hs] at hstep
      exact hstep

/-!
The request log only ever grows, and a run's first request is the resume
page.
-/

/-- One loop iteration only appends to the request log. -/
theorem scanStepCore_requested (pr : PageResult) (st0 : ScanState) :
    ∃ u, (scanStepCore pr st0).state.requested = st0.requested ++ u := by
  cases pr with
  | stopDepth => exact ⟨[], by simp [scanStepCore, StepOut.state]⟩
  | stopApi => exact ⟨[], by simp [scanStepCore, StepOut.state]⟩
  | stopMalformed => exact ⟨[], by simp [scanStepCore, StepOut.state]⟩
  | emptyPage => exact ⟨[], by simp [scanStepCore, StepOut.state]⟩
  | retriesExhausted => exact ⟨[], by simp [scanStepCore, StepOut.state]⟩
  | gotItems items =>
    cases hpp : processPage st0 items with
    | error e => exact ⟨[], by simp [scanStepCore, hpp, StepOut.state]⟩
    | ok st1 =>
      exact ⟨[], by
        simp [scanStepCore, hpp, StepOut.state,
          (processPage_spec st0 items st1 hpp).2.1]⟩

/-- One `scanStep` appends the current page (and nothing before it) to the
request log. -/
theorem scanStep_requested (api : Nat → Nat → PageFetch) (st : ScanState) :
    ∃ u, (scanStep api st).state.requested = (st.requested ++ [st.page]) ++ u := by
  unfold scanStep
  exact scanStepCore_requested _ _

/-- A run only appends to the request log. -/
theorem runScan_requested_extends (api : Nat → Nat → PageFetch) :
    ∀ (fuel : Nat) (st : ScanState),
      ∃ t, (runScan api fuel st).1.requested = st.requested ++ t := by
  intro fuel
  induction fuel with
  | zero => intro st; exact ⟨[], by simp [runScan]⟩
  | succ f ih =>
    intro st
    obtain ⟨u, hu⟩ := scanStep_requested api st
    unfold runScan
    cases hs : scanStep api st with
    | next st1 =>
      obtain ⟨t, ht⟩ := ih st1
      rw [hs] at hu
      simp only [StepOut.state] at hu
      exact ⟨[st.page] ++ u ++ t, by rw [ht, hu]; simp⟩
    | halt st1 r =>
      rw [hs] at hu
      simp only [StepOut.state] at hu
      exact ⟨[st.page] ++ u, by simp [hu]⟩

/-- The first page a run requests is its starting page. -/
theorem runScan_first_request (api : Nat → Nat → PageFetch) (fuel : Nat)
    (st : ScanState) (hreq : st.requested = []) :
    (runScan api (fuel + 1) st).1.requested.head? = some st.page := by
  obtain ⟨u, hu⟩ := scanStep_requested api st
  unfold runScan
  cases hs : scanStep api st with
  | next st1 =>
    obtain ⟨t, ht⟩ := runScan_requested_extends api fuel st1
    rw [hs] at hu
    simp only [StepOut.state] at hu
    rw [ht, hu, hreq]
    simp
  | halt st1 r =>
    rw [hs] at hu
    simp only [StepOut.state] at hu
    rw [hu, hreq]
    simp

/-!
Helper lemmas about the two attribute matchers.
-/

/-- An attribute whose trait type lowers to something other than `"rarity"`
never satisfies the matcher of `find_all_ultimate_nfts` (which even demands
the exact string `"rarity"`). -/
theorem track_attr_matches_false_of_no_rarity (a : NftAttr)
    (h : ∃ s, a.trait_type.getD (.vStr "") = .vStr s ∧ strLower s ≠ "rarity") :
    track_attr_matches a = false := by
  obtain ⟨s, hs, hns⟩ := h
  have hne : a.trait_type ≠ some (PyVal.vStr "rarity") := by
    intro hcontra
    rw [hcontra] at hs
    simp only [Option.getD_some] at hs
    injection hs with hs2
    subst hs2
    exact hns (by decide)
  have hb : (a.trait_type == some (PyVal.vStr "rarity")) = false :=
    beq_eq_false_iff_ne.mpr hne
  simp [track_attr_matches, hb]

/-- On a list whose trait types are all strings and none of them lowers to
`"rarity"`, `check_nft_rarity` falls through to `"none"`. -/
theorem check_nft_rarity_none :
    ∀ (attrs : List NftAttr),
      (∀ a ∈ attrs, ∃ s, a.trait_type.getD (.vStr "") = .vStr s ∧ strLower s ≠ "rarity") →
      check_nft_rarity attrs = .ok "none" := by
  intro attrs
  induction attrs with
  | nil => intro _; rfl
  | cons a rest ih =>
    intro h
    obtain ⟨s, hs, hns⟩ := h a (List.mem_cons_self a rest)
    unfold check_nft_rarity
    rw [hs]
    simp only [pyLower]
    rw [if_neg hns]
    exact ih fun b hb => h b (List.mem_cons_of_mem a hb)

/-- Under the same hypothesis `find_all_ultimate_nfts` collects nothing. -/
theorem find_ultimate_in_asset_none (nft : Asset) :
    ∀ (attrs : List NftAttr),
      (∀ a ∈ attrs, ∃ s, a.trait_type.getD (.vStr "") = .vStr s ∧ strLower s ≠ "rarity") →
      find_ultimate_in_asset nft attrs = [] := by
  intro attrs
  induction attrs with
  | nil => intro _; rfl
  | cons a rest ih =>
    intro h
    unfold find_ultimate_in_asset
    rw [track_attr_matches_false_of_no_rarity a (h a (List.mem_cons_self a rest))]
    simpa using ih fun b hb => h b (List.mem_cons_of_mem a hb)

/-- The first attribute whose trait type lowers to `"rarity"` decides the
result of `check_nft_rarity`; everything after it is ignored. -/
theorem check_nft_rarity_first :
    ∀ (pre : List NftAttr) (a : NftAttr) (rest : List NftAttr),
      (∀ b ∈ pre, ∃ s, b.trait_type.getD (.vStr "") = .vStr s ∧ strLower s ≠ "rarity") →
      (∃ s, a.trait_type.getD (.vStr "") = .vStr s ∧ strLower s = "rarity") →
      check_nft_rarity (pre ++ a :: rest) = pyLower (a.value.getD (.vStr "")) := by
  intro pre
  induction pre with
  | nil =>
    intro a rest _ ha
    obtain ⟨s, hs, hr⟩ := ha
    simp only [List.nil_append]
    unfold check_nft_rarity
    rw [hs]
    simp only [pyLower]
    rw [if_pos hr]
  | cons b pre2 ih =>
    intro a rest hpre ha
    obtain ⟨s, hs, hns⟩ := hpre b (List.mem_cons_self b pre2)
    simp only [List.cons_append]
    unfold check_nft_rarity
    rw [hs]
    simp only [pyLower]
    rw [if_neg hns]
    exact ih a rest (fun c hc => hpre c (List.mem_cons_of_mem b hc)) ha

/-- The matcher of `find_all_ultimate_nfts` produces one record per
satisfying attribute. -/
theorem find_ultimate_in_asset_length (nft : Asset) :
    ∀ (attrs : List NftAttr),
      (find_ultimate_in_asset nft attrs).length = attrs.countP track_attr_matches := by
  intro attrs
  induction attrs with
  | nil => rfl
  | cons a rest ih =>
    unfold find_ultimate_in_asset
    cases h : track_attr_matches a with
    | true => simp [h, List.countP_cons, ih]
    | false => simp [h, List.countP_cons, ih]

/-!
Helper lemmas about the deduplicating sink.
-/

/-- When some existing row already carries the address in its first cell,
`add_ultimate_nft_to_sheet` returns `duplicateSkip` and leaves the sheet
unchanged. -/
theorem add_sheet_skips_existing (sheet : List (List String)) (row : List String)
    (address name owner : String) (hmem : row ∈ sheet)
    (hhead : row.head? = some address) :
    add_ultimate_nft_to_sheet sheet address name owner = (sheet, .duplicateSkip) := by
  unfold add_ultimate_nft_to_sheet
  rw [if_pos]
  exact List.any_eq_true.mpr ⟨row, hmem, by simp [hhead]⟩

/-- Emitting the same record twice through `add_ultimate_nft_to_sheet`
leaves the sheet as after the first emit and reports `duplicateSkip`. -/
theorem add_sheet_idempotent (sheet : List (List String))
    (address name owner : String) :
    add_ultimate_nft_to_sheet (add_ultimate_nft_to_sheet sheet address name owner).1
        address name owner
      = ((add_ultimate_nft_to_sheet sheet address name owner).1,
         EmitResult.duplicateSkip) := by
  unfold add_ultimate_nft_to_sheet
  cases h : sheet.any (fun row => row.head? == some address) with
  | true => simp [h]
  | false => simp [h, List.any_append]

/-!
Step-unfolding lemmas for the two page loops.
-/

/-- A first attempt that returns an empty item list makes the whole retry
loop report an empty page. -/
theorem fetchPage_empty_first (f : Nat → PageFetch) (h : f 1 = .pageItems []) :
    fetchPage f = (.emptyPage, []) := by
  unfold fetchPage fetchPageFrom
  rw [h]

/-- When the retry loop reports an empty page, the scan halts with
`naturalEnd` right after it: the request log ends at the current page and no
further page is requested. -/
theorem runScan_empty_page (api : Nat → Nat → PageFetch) (st : ScanState)
    (fuel : Nat) (h : (fetchPage (api st.page)).1 = .emptyPage) :
    runScan api (fuel + 1) st
      = ({ st with requested := st.requested ++ [st.page], page := st.page + 1 },
         .naturalEnd) := by
  unfold runScan scanStep
  rw [h]
  rfl

/-- A successfully processed item page advances the loop to the next page. -/
theorem scanStepCore_gotItems_ok (items : List Asset) (st0 st1 : ScanState)
    (hp : processPage st0 items = .ok st1) :
    scanStepCore (.gotItems items) st0 = .next { st1 with page := st1.page + 1 } := by
  simp only [scanStepCore, hp]

/-- A non-empty page — however short — never ends the scan: after successful
processing the loop continues at the next page. -/
theorem runScan_nonempty_page (api : Nat → Nat → PageFetch) (st : ScanState)
    (fuel : Nat) (a : Asset) (rest : List Asset) (st1 : ScanState)
    (hf : (fetchPage (api st.page)).1 = .gotItems (a :: rest))
    (hp : processPage { st with requested := st.requested ++ [st.page] } (a :: rest)
            = .ok st1) :
    runScan api (fuel + 1) st = runScan api fuel { st1 with page := st1.page + 1 } := by
  conv_lhs => unfold runScan scanStep
  rw [hf, scanStepCore_gotItems_ok _ _ _ hp]

/-- In `find_all_ultimate_nfts` a page with fewer than 1000 items ends the
loop naturally after being processed. -/
theorem trackRun_short_page (api : Nat → TrackFetch) (st : TrackState)
    (fuel : Nat) (its : List Asset) (h : api st.page = .items its)
    (hlen : its.length < 1000) :
    trackRun api (fuel + 1) st
      = ({ st with requested := st.requested ++ [TrackReq.mk st.page track_request_limit],
                   totalChecked := st.totalChecked + its.length,
                   ultimates := st.ultimates ++ trackCollect its }, .naturalEnd) := by
  unfold trackRun
  rw [h]
  simp only [if_pos hlen]

/-- In `find_all_ultimate_nfts` a page with at least 1000 items continues
the loop — even when its length is below the requested limit of 10000. -/
theorem trackRun_long_page (api : Nat → TrackFetch) (st : TrackState)
    (fuel : Nat) (its : List Asset) (h : api st.page = .items its)
    (hlen : 1000 ≤ its.length) :
    trackRun api (fuel + 1) st
      = trackRun api fuel
          { st with requested := st.requested ++ [TrackReq.mk st.page track_request_limit],
                    totalChecked := st.totalChecked + its.length,
                    ultimates := st.ultimates ++ trackCollect its,
                    page := st.page + 1 } := by
  conv_lhs => unfold trackRun
  rw [h]
  simp only [if_neg (not_lt.mpr hlen)]

/-!
Claims.
-/

/-- C1, counterexample.  The claim says a page strictly shorter than the
requested limit terminates the scan with no further page request.  In the
checkpointed driver the requested limit is `batch_size = 1000`; page 1
returns a single item (length 1 < 1000), yet the run goes on to request
page 2, terminating only at the empty page 2. -/
theorem C1_counterexample :
    ([plainAsset] : List Asset).length < batch_size ∧
    (runScan shortPageApi 5 (initScanState none)).1.requested = [1, 2] ∧
    (runScan shortPageApi 5 (initScanState none)).2 = StopReason.naturalEnd := by
  decide

/-- C1, amended.  In `scripts/track_ultimate_nfts.py` only an empty page
signals end-of-collection: the scan then halts with `naturalEnd` and the
current page is the last one requested; a non-empty page, however far below
the 1000-item limit, continues the scan at the next page.  In
`track_ultimate_nfts.py` the scan ends naturally exactly when a page has
fewer than 1000 items, a hard-coded constant independent of the requested
limit, which is 10000. -/
theorem C1_amended :
    (∀ (f : Nat → PageFetch), f 1 = .pageItems [] → fetchPage f = (.emptyPage, [])) ∧
    (∀ (api : Nat → Nat → PageFetch) (st : ScanState) (fuel : Nat),
      (fetchPage (api st.page)).1 = .emptyPage →
      runScan api (fuel + 1) st
        = ({ st with requested := st.requested ++ [st.page], page := st.page + 1 },
           .naturalEnd)) ∧
    (∀ (api : Nat → Nat → PageFetch) (st : ScanState) (fuel : Nat)
        (a : Asset) (rest : List Asset) (st1 : ScanState),
      (fetchPage (api st.page)).1 = .gotItems (a :: rest) →
      processPage { st with requested := st.requested ++ [st.page] } (a :: rest)
          = .ok st1 →
      runScan api (fuel + 1) st = runScan api fuel { st1 with page := st1.page + 1 }) ∧
    (∀ (api : Nat → TrackFetch) (st : TrackState) (fuel : Nat) (its : List Asset),
      api st.page = .items its → its.length < 1000 →
      trackRun api (fuel + 1) st
        = ({ st with
              requested := st.requested ++ [TrackReq.mk st.page track_request_limit],
              totalChecked := st.totalChecked + its.length,
              ultimates := st.ultimates ++ trackCollect its }, .naturalEnd)) ∧
    (∀ (api : Nat → TrackFetch) (st : TrackState) (fuel : Nat) (its : List Asset),
      api st.page = .items its → 1000 ≤ its.length →
      trackRun api (fuel + 1) st
        = trackRun api fuel
            { st with
              requested := st.requested ++ [TrackReq.mk st.page track_request_limit],
              totalChecked := st.totalChecked + its.length,
              ultimates := st.ultimates ++ trackCollect its,
              page := st.page + 1 }) ∧
    track_request_limit = 10000 :=
  ⟨fetchPage_empty_first, runScan_empty_page, runScan_nonempty_page,
   trackRun_short_page, trackRun_long_page, rfl⟩

/-- C1, witness for the amended theorem at concrete inputs: an
always-empty collection halts the checkpointed driver naturally after its
single request, and a 1-item page (< 1000) ends `find_all_ultimate_nfts`
naturally after being processed. -/
theorem C1_amended_witness :
    runScan emptyApi 1 (initScanState none)
      = ({ initScanState none with
            requested := (initScanState none).requested ++ [(initScanState none).page],
            page := (initScanState none).page + 1 }, StopReason.naturalEnd) ∧
    trackRun oneItemTrackApi 1 trackInit
      = ({ trackInit with
            requested := trackInit.requested
              ++ [TrackReq.mk trackInit.page track_request_limit],
            totalChecked := trackInit.totalChecked + ([plainAsset] : List Asset).length,
            ultimates := trackInit.ultimates ++ trackCollect [plainAsset] },
         TrackStop.naturalEnd) :=
  ⟨C1_amended.2.1 emptyApi (initScanState none) 0 rfl,
   C1_amended.2.2.2.1 oneItemTrackApi trackInit 0 [plainAsset] rfl (by decide)⟩

/-- C2, counterexample.  The claim says matching is case-insensitive on the
trait type in every variant, so an attribute with trait type `"Rarity"`
should be matched.  The matcher of `find_all_ultimate_nfts` compares the
raw trait type against the exact string `"rarity"`, so the capitalised
attribute produces no match. -/
theorem C2_counterexample :
    track_asset_matches capitalRarityAsset = [] ∧
    track_attr_matches capitalRarityAttr = false := by
  decide

/-- C2, amended.  In `check_nft_rarity` both the trait type and the value
are compared case-insensitively; in `find_all_ultimate_nfts` the trait
type must equal `"rarity"` exactly (case-sensitive) and only the value is
lowered, so trait type `"Rarity"` matches in the former but not in the
latter; and an asset with no attribute whose trait type lowers to
`"rarity"` produces no match in either variant. -/
theorem C2_amended :
    (∀ (s v : String), strLower s = "rarity" →
      check_nft_rarity [⟨some (.vStr s), some (.vStr v)⟩] = .ok (strLower v)) ∧
    (∀ (s v : String),
      track_attr_matches ⟨some (.vStr s), some (.vStr v)⟩ = true ↔
        s = "rarity" ∧ strLower v = "ultimate") ∧
    (∀ (attrs : List NftAttr),
      (∀ a ∈ attrs, ∃ s, a.trait_type.getD (.vStr "") = .vStr s ∧ strLower s ≠ "rarity") →
      check_nft_rarity attrs = .ok "none" ∧
        ∀ nft : Asset, find_ultimate_in_asset nft attrs = []) ∧
    check_nft_rarity [capitalRarityAttr] = .ok "ultimate" ∧
    track_attr_matches capitalRarityAttr = false := by
  refine ⟨?_, ?_, ?_, by decide, by decide⟩
  · intro s v h
    unfold check_nft_rarity
    simp only [Option.getD_some, pyLower]
    rw [if_pos h]
  · intro s v
    simp [track_attr_matches]
  · intro attrs h
    exact ⟨check_nft_rarity_none attrs h,
           fun nft => find_ultimate_in_asset_none nft attrs h⟩

/-- C2, witness for the amended theorem: a mixed-case trait type is matched
by `check_nft_rarity`, and an asset with no rarity attribute yields
`"none"`. -/
theorem C2_amended_witness :
    check_nft_rarity [⟨some (.vStr "RaRiTy"), some (.vStr "ULTIMATE")⟩]
      = .ok (strLower "ULTIMATE") ∧
    check_nft_rarity [⟨some (.vStr "Background"), some (.vStr "Blue")⟩] = .ok "none" :=
  ⟨C2_amended.1 "RaRiTy" "ULTIMATE" (by decide),
   (C2_amended.2.2.1 [⟨some (.vStr "Background"), some (.vStr "Blue")⟩]
      (by
        intro a ha
        simp only [List.mem_singleton] at ha
        subst ha
        exact ⟨"Background", rfl, by decide⟩)).1⟩

/-- C3, counterexample.  The claim says an asset contributes at most one
Match even when several attributes satisfy the predicate.  In
`find_all_ultimate_nfts` the attribute loop has no break: an asset with two
satisfying attributes appends two records. -/
theorem C3_counterexample :
    (track_asset_matches doubleRarityAsset).length = 2 ∧
    1 < (track_asset_matches doubleRarityAsset).length := by
  decide

/-- C3, amended.  `check_nft_rarity` returns at most one rarity value,
decided by the first attribute whose trait type lowers to `"rarity"`;
`find_all_ultimate_nfts` appends one record per satisfying attribute, so an
asset contributes as many matches as it has satisfying attributes — exactly
one when exactly one attribute satisfies the matcher, wherever it sits in
the list. -/
theorem C3_amended :
    (∀ (pre : List NftAttr) (a : NftAttr) (rest : List NftAttr),
      (∀ b ∈ pre, ∃ s, b.trait_type.getD (.vStr "") = .vStr s ∧ strLower s ≠ "rarity") →
      (∃ s, a.trait_type.getD (.vStr "") = .vStr s ∧ strLower s = "rarity") →
      check_nft_rarity (pre ++ a :: rest) = pyLower (a.value.getD (.vStr ""))) ∧
    (∀ (nft : Asset) (attrs : List NftAttr),
      (find_ultimate_in_asset nft attrs).length = attrs.countP track_attr_matches) ∧
    (track_asset_matches
        ⟨"addr5", "NFT Five", "owner5",
         [⟨some (.vStr "Background"), some (.vStr "Blue")⟩,
          ⟨some (.vStr "rarity"), some (.vStr "Ultimate")⟩,
          ⟨some (.vStr "Size"), some (.vStr "Big")⟩]⟩).length = 1 :=
  ⟨check_nft_rarity_first, find_ultimate_in_asset_length, by decide⟩

/-- C3, witness for the amended theorem: with one non-rarity attribute in
front, the rarity attribute still decides `check_nft_rarity`, and a later
rarity attribute is ignored. -/
theorem C3_amended_witness :
    check_nft_rarity
        ([⟨some (.vStr "Background"), some (.vStr "Blue")⟩]
          ++ (⟨some (.vStr "rarity"), some (.vStr "ultimate")⟩ : NftAttr)
            :: [⟨some (.vStr "rarity"), some (.vStr "common")⟩])
      = pyLower
          ((⟨some (.vStr "rarity"), some (.vStr "ultimate")⟩ : NftAttr).value.getD
            (.vStr "")) :=
  C3_amended.1 _ _ _
    (by
      intro b hb
      simp only [List.mem_singleton] at hb
      subst hb
      exact ⟨"Background", rfl, by decide⟩)
    ⟨"rarity", rfl, by decide⟩

/-- C4, code bug.  The claim (and the source's own comments, lines 247 and
251 of `scripts/track_ultimate_nfts.py`) require the checkpoint to survive a
depth-limit termination.  `main` instead keeps the file only when the
current run fetched at least 500000 items: a run resumed from checkpoint
page 451 that immediately hits the depth-limit error stops with
`allCount = 0`, and `main` then removes the checkpoint. -/
theorem C4_depth_limit_run_removes_checkpoint :
    (runScan depthApi 10 (initScanState (some (451, .vStr "2024-01-01")))).2
        = StopReason.depthLimit ∧
    (runScan depthApi 10 (initScanState (some (451, .vStr "2024-01-01")))).1.allCount
        = 0 ∧
    main_removes_checkpoint
        (runScan depthApi 10 (initScanState (some (451, .vStr "2024-01-01")))).1.allCount
      = true := by
  decide

/-- C5, counterexample.  The claim says the retry backoff grows linearly in
the attempt number.  In the checkpointed driver a page whose three attempts
all fail sleeps `[2, 2]` — a constant delay, not an increasing one. -/
theorem C5_counterexample :
    (fetchPage (allFailPageApi 1)).2 = [script_retry_sleep, script_retry_sleep] ∧
    ¬ List.Chain' (· < ·) (fetchPage (allFailPageApi 1)).2 := by
  refine ⟨by decide, ?_⟩
  intro h
  rw [show (fetchPage (allFailPageApi 1)).2 = [2, 2] from by decide] at h
  simp [List.chain'_cons] at h

/-- C5, amended.  Both variants retry up to 3 attempts.  The checkpointed
driver sleeps a constant 2 seconds between attempts and, when all attempts
fail, skips the page and advances: with page 1 unreachable it requests
pages 1, 2, 3, checkpoints only page 2, and ends naturally.  The
cursor-based fetcher sleeps `retry_delay * (attempt + 1)` — linearly
increasing — but on exhaustion returns `([], None)`, which its caller
treats as end-of-collection and stops. -/
theorem C5_amended :
    fetchPage (allFailPageApi 1) = (.retriesExhausted, [2, 2]) ∧
    (runScan skipApi 5 (initScanState none)).1.requested = [1, 2, 3] ∧
    (runScan skipApi 5 (initScanState none)).1.checkpoints.map Prod.fst = [2] ∧
    (runScan skipApi 5 (initScanState none)).2 = StopReason.naturalEnd ∧
    get_nfts_by_collection allFailCursorApi
      = (([], .vNone), [retry_delay * 1, retry_delay * 2, retry_delay * 3]) ∧
    fetchMainLoop (constEnv allFailCursorApi) 5 initFetchState
      = (.completeNoNfts, initFetchState) := by
  decide

/-- C6, counterexample.  The claim says each checkpoint records the next
position to fetch.  After page 1 is processed the saved checkpoint records
page 1 itself, while the next position actually requested is page 2. -/
theorem C6_counterexample :
    (runScan shortPageApi 5 (initScanState none)).1.checkpoints = [(1, .vNone)] ∧
    (runScan shortPageApi 5 (initScanState none)).1.requested = [1, 2] ∧
    (1 : Nat) ≠ 2 := by
  decide

/-- C6, amended.  After every successfully processed page exactly one
checkpoint is persisted; it records the page just processed (the current
position, not the next one) together with the final `last_date` across the
page, so a resumed run starts at — and re-fetches — the saved page; the
sink's dedup absorbs the resulting re-emissions. -/
theorem C6_amended :
    (∀ (st : ScanState) (items : List Asset) (st1 : ScanState),
      processPage st items = Except.ok st1 →
      st1.checkpoints = st.checkpoints ++ [(st.page, st1.lastDate)] ∧
        st1.page = st.page) ∧
    (∀ (api : Nat → Nat → PageFetch) (fuel : Nat) (p : Nat) (d : PyVal),
      (runScan api (fuel + 1) (initScanState (some (p, d)))).1.requested.head?
        = some p) ∧
    (runScan datedPageApi 5 (initScanState none)).1.checkpoints
      = [(1, .vStr "2024-02-02")] := by
  refine ⟨?_, ?_, by decide⟩
  · intro st items st1 h
    have hs := processPage_spec st items st1 h
    exact ⟨hs.2.2, hs.1⟩
  · intro api fuel p d
    exact runScan_first_request api fuel (initScanState (some (p, d))) rfl

/-- C6, witness for the amended theorem: one concrete page appends exactly
the checkpoint `(1, None)` and leaves the page number unchanged. -/
theorem C6_amended_witness :
    (⟨1, .vNone, 1, [(1, .vNone)], [], []⟩ : ScanState).checkpoints
        = (initScanState none).checkpoints
            ++ [((initScanState none).page,
                 (⟨1, .vNone, 1, [(1, .vNone)], [], []⟩ : ScanState).lastDate)] ∧
    (⟨1, .vNone, 1, [(1, .vNone)], [], []⟩ : ScanState).page
        = (initScanState none).page :=
  C6_amended.1 (initScanState none) [plainAsset]
    ⟨1, .vNone, 1, [(1, .vNone)], [], []⟩ rfl

/-- C7, counterexample.  The claim says every sink first reads the ledger
and skips duplicates, so replaying a page leaves one row per match.
`log_ultimate_nft` appends unconditionally: emitting the same record twice
produces two rows. -/
theorem C7_counterexample :
    (log_ultimate_nft
        (log_ultimate_nft [] "addr1" "NFT One" "owner1" COLLECTION_ID)
        "addr1" "NFT One" "owner1" COLLECTION_ID).length = 2 := by
  decide

/-- C7, amended.  `add_ultimate_nft_to_sheet` (checkpointed driver) reads
the existing rows and returns `duplicateSkip` without mutation when a row
already carries the asset id, so emitting the same record twice leaves the
sheet as after the first emit; `log_ultimate_nft` (cursor variant) performs
no such check and appends one row per call. -/
theorem C7_amended :
    (∀ (sheet : List (List String)) (row : List String) (address name owner : String),
      row ∈ sheet → row.head? = some address →
      add_ultimate_nft_to_sheet sheet address name owner = (sheet, .duplicateSkip)) ∧
    (∀ (sheet : List (List String)) (address name owner : String),
      add_ultimate_nft_to_sheet (add_ultimate_nft_to_sheet sheet address name owner).1
          address name owner
        = ((add_ultimate_nft_to_sheet sheet address name owner).1,
           EmitResult.duplicateSkip)) ∧
    (∀ (sheet : List (List String)) (id name owner collection : String),
      (log_ultimate_nft sheet id name owner collection).length = sheet.length + 1) := by
  refine ⟨?_, add_sheet_idempotent, ?_⟩
  · intro sheet row address name owner hmem hhead
    exact add_sheet_skips_existing sheet row address name owner hmem hhead
  · intro sheet id name owner collection
    simp [log_ultimate_nft]

/-- C7, witness for the amended theorem: a sheet already holding the
address skips the append. -/
theorem C7_amended_witness :
    add_ultimate_nft_to_sheet [["addr1", "NFT One", "owner1"]] "addr1" "x" "y"
      = ([["addr1", "NFT One", "owner1"]], EmitResult.duplicateSkip) :=
  C7_amended.1 [["addr1", "NFT One", "owner1"]] ["addr1", "NFT One", "owner1"]
    "addr1" "x" "y" (by simp) rfl

/-- C8, confirmed.  Along any run of the checkpointed driver the sequence
of saved checkpoint positions is strictly increasing, and a page that fails
twice before succeeding on the third attempt is checkpointed exactly once. -/
theorem C8_checkpoint_positions_increase :
    (∀ (api : Nat → Nat → PageFetch) (fuel : Nat) (cp : Option (Nat × PyVal)),
      List.Pairwise (· < ·)
        ((runScan api fuel (initScanState cp)).1.checkpoints.map Prod.fst)) ∧
    (runScan retryThenSuccessApi 5 (initScanState none)).1.checkpoints.map Prod.fst
      = [1] := by
  constructor
  · intro api fuel cp
    exact (runScan_inv api fuel (initScanState cp)
      ⟨by simp [initScanState], by simp [initScanState]⟩).1
  · decide

/-- C9, confirmed.  When every attempt fails, `get_nfts_by_collection`
returns `([], None)` — byte-for-byte the value it returns for a genuinely
empty collection — and `main` treats both identically, terminating with the
normal completion summary and no error in the returned data. -/
theorem C9_exhausted_retries_identical_to_empty :
    get_nfts_by_collection allFailCursorApi = (([], .vNone), [1, 2, 3]) ∧
    get_nfts_by_collection emptyCollectionApi = (([], .vNone), []) ∧
    (get_nfts_by_collection allFailCursorApi).1
      = (get_nfts_by_collection emptyCollectionApi).1 ∧
    fetchMainLoop (constEnv allFailCursorApi) 5 initFetchState
      = (.completeNoNfts, initFetchState) ∧
    fetchMainLoop (constEnv emptyCollectionApi) 5 initFetchState
      = (.completeNoNfts, initFetchState) := by
  decide

/-- C10, confirmed.  On an asset whose rarity attribute carries a numeric
value, `check_nft_rarity` raises (`.lower()` on a non-string), while the
isinstance-guarded matcher of `find_all_ultimate_nfts` is total on the same
input: it returns no match and no error. -/
theorem C10_nonstring_rarity_value :
    check_nft_rarity numericRarityAsset.attributes = .error () ∧
    track_asset_matches numericRarityAsset = [] := by
  decide

end Solanapoet
